import Mathlib

/-!
Verification of the sigmanest interface server (`src/server/src/main.rs` and
`src/server/src/db/pool.rs`) against its natural-language specification.

The Rust handlers are shallowly embedded as pure Lean functions.  Each
external effect (connection-pool acquisition, query execution, the batch
source fetch, the nest lookup) is passed in as an explicit outcome argument,
so a handler is a function from those outcomes to its observable behaviour:
HTTP status, response body, the list of database writes it attempted, and
the log entries it emitted.  A `.unwrap()` on a failed external call in the
Rust source is modelled as a distinguished `panicked` outcome, which is not
an HTTP response.
-/

namespace Sigmanest

/-- Client-asserted program lifecycle state (`enum ProgramState` in main.rs). -/
inductive ProgramState
  | Initiated
  | Processing
  | Complete
  | Cancelled
deriving DecidableEq, Repr

/-- Body of a POST state-transition request (`struct ProgramUpdateParams`). -/
structure ProgramUpdateParams where
  batch : String
  state : ProgramState
deriving DecidableEq, Repr

/-- A sheet-cutting batch.  The Rust `Batch` lives in the external
`sigmanest_interface` crate; per the spec its attributes are `sheet_name`
plus metadata opaque to the core, which we carry as a single opaque string
so distinct batches on the same sheet can be distinguished. -/
structure Batch where
  sheet_name : String
  meta : String
deriving DecidableEq, Repr

/-- A sheet, identified by its name (the join key of the system). -/
structure Sheet where
  sheet_name : String
deriving DecidableEq, Repr

/-- A nest: the assignment of a cut program to a sheet
(`sigmanest_interface::db::api::Nest`; attributes per the spec). -/
structure Nest where
  program : String
  sheet : Sheet
deriving DecidableEq, Repr

/-- Error taxonomy of the spec (section 7): `NotFound`, `DatabaseError`,
`SourceUnavailable`. -/
inductive DbError
  | NotFound
  | DatabaseError
  | SourceUnavailable
deriving DecidableEq, Repr

/-- Log levels used by the handlers (`log::trace!`, `log::debug!`,
`log::info!`, `log::error!`). -/
inductive LogLevel
  | TraceLvl
  | DebugLvl
  | InfoLvl
  | ErrorLvl
deriving DecidableEq, Repr

/-- One emitted log entry. -/
structure LogEntry where
  level : LogLevel
  msg : String
deriving DecidableEq, Repr

/-- The completion-transaction insert attempted by the `Complete` branch of
`update_program`.  It records the semantics of the single SQL statement

  `INSERT INTO TransAct(TransType,District,ProgramName,ProgramRepeat)
   VALUES (SELECT TOP 1 'SN70',1,@P1,RepeatId FROM Program WHERE ProgramName=@P1)`

with `@P1` bound to the program path parameter: a fixed transaction type
`'SN70'`, district `1`, the program name, and a repeat identifier looked up
by that same program name inside the statement. -/
structure CompletionWrite where
  transType : String
  district : Nat
  programName : String
  repeatLookupProgram : String
deriving DecidableEq, Repr

/-- Response bodies observable from the embedded handlers. -/
inductive RespBody
  | null
  | strings (xs : List String)
deriving DecidableEq, Repr

/-- Observable behaviour of `update_program`: the database writes attempted,
the log entries emitted, and the HTTP response — `none` when the task
panicked on a `.unwrap()`, so that no response was produced. -/
structure UpdateOut where
  writes : List CompletionWrite
  logs : List LogEntry
  resp : Option (Nat × RespBody)
deriving DecidableEq, Repr

/-- Embedding of `update_program` (main.rs lines 257-304).  Only the
`Complete` branch touches the database: it first emits the info log (line
275), then acquires a pooled connection with
`state.db.get_owned().await.unwrap()` (line 279) — `connAcq = none`
panics the task there, attempting no write and producing no response —
and only then attempts the completion insert, whose `conn.execute` outcome
is `executeResult` (consulted only when acquisition succeeded).  Every
non-panicking path falls through to
`(StatusCode::CREATED, Json(Value::Null))`. -/
def update_program (program : String) (params : ProgramUpdateParams)
    (connAcq : Option Unit) (executeResult : Except String Unit) : UpdateOut :=
  match params.state with
  | ProgramState.Initiated =>
      { writes := [],
        logs := [⟨LogLevel.TraceLvl, "Program " ++ program ++ " initiated"⟩],
        resp := some (201, RespBody.null) }
  | ProgramState.Processing =>
      { writes := [],
        logs := [⟨LogLevel.TraceLvl,
          "Program " ++ program ++ " is moved to processing with batch " ++ params.batch⟩],
        resp := some (201, RespBody.null) }
  | ProgramState.Complete =>
      let infoLog : LogEntry :=
        ⟨LogLevel.InfoLvl, "Program " ++ program ++ " complete with batch " ++ params.batch⟩
      match connAcq with
      | none =>
          { writes := [], logs := [infoLog], resp := none }
      | some _ =>
          let w : CompletionWrite :=
            { transType := "SN70", district := 1,
              programName := program, repeatLookupProgram := program }
          match executeResult with
          | Except.ok _ =>
              { writes := [w], logs := [infoLog], resp := some (201, RespBody.null) }
          | Except.error e =>
              { writes := [w],
                logs := [infoLog,
                  ⟨LogLevel.ErrorLvl, "Failed to push program update to SimTrans"⟩,
                  ⟨LogLevel.ErrorLvl, e⟩],
                resp := some (201, RespBody.null) }
  | ProgramState.Cancelled =>
      { writes := [],
        logs := [⟨LogLevel.TraceLvl, "Program " ++ program ++ " cancelled"⟩],
        resp := some (201, RespBody.null) }

/-- A sequence of POST state-transition requests, each handled by its own
task: the handler is stateless across calls, so the attempted writes of
the sequence are the concatenation of each call's writes. -/
def run_updates
    (reqs : List (String × ProgramUpdateParams × Option Unit × Except String Unit)) :
    List CompletionWrite :=
  match reqs with
  | [] => []
  | r :: rest => (update_program r.1 r.2.1 r.2.2.1 r.2.2.2).writes ++ run_updates rest

/-- Handler outcomes for the embedded handlers that can panic: a `.unwrap()`
on a failed external call aborts the request task, producing no HTTP
response; otherwise the handler either returns an error to the framework or
produces a value. -/
inductive HandlerOut (α : Type)
  | panicked
  | err (e : DbError)
  | ok (a : α)
deriving DecidableEq, Repr

/-- Get-or-populate step of the batch cache (the shared
`Mutex<Option<Vec<Batch>>>` of `AppState`, as used identically in
`get_batches` lines 131-138 and `get_batches_for_program` lines 149-153):
under the lock, if the cell is `None` the external batch source is fetched
(`Batch::get_batches()?` -- an `Err` propagates and leaves the cell empty),
otherwise the cached list is served.  `fetch` gives the outcome of the
n-th invocation of the external source and `fetchCount` counts those
invocations. -/
structure CacheState where
  cache : Option (List Batch)
  fetchCount : Nat
deriving DecidableEq, Repr

def cacheStep (fetch : Nat → Except DbError (List Batch)) (s : CacheState) :
    CacheState × Except DbError (List Batch) :=
  match s.cache with
  | some bs => (s, Except.ok bs)
  | none =>
      match fetch s.fetchCount with
      | Except.ok bs => (⟨some bs, s.fetchCount + 1⟩, Except.ok bs)
      | Except.error e => (⟨none, s.fetchCount + 1⟩, Except.error e)

/-- Run `n` successive get-or-populate operations (the mutex serializes
them), collecting each caller's observed result. -/
def cacheRun (fetch : Nat → Except DbError (List Batch)) :
    Nat → CacheState → CacheState × List (Except DbError (List Batch))
  | 0, s => (s, [])
  | n + 1, s =>
      let (s', r) := cacheStep fetch s
      let (s'', rs) := cacheRun fetch n s'
      (s'', r :: rs)

/-- Modelled from the spec: `Nest::get` (the `resolve_nest` contract of
section 4.2) lives in the external `sigmanest_interface` crate, absent from
src/.  Per the spec it queries the database for the program's assigned
sheet row, failing with `NotFound` if no matching program/sheet row exists.
The database table is modelled as the list of its nest rows; `dbFails`
models a query failure (`DatabaseError`). -/
def Nest.get (rows : List Nest) (dbFails : Bool) (program : String) :
    Except DbError Nest :=
  if dbFails then Except.error DbError.DatabaseError
  else
    match rows.find? (fun n => n.program == program) with
    | some n => Except.ok n
    | none => Except.error DbError.NotFound

/-- Embedding of `get_batches` (main.rs lines 127-139): get-or-populate
the cache under the lock (`Batch::get_batches()?`, error propagated), then
return the cached list.  This handler acquires no pooled connection, so it
has no panic path. -/
def get_batches (cache : Option (List Batch))
    (fetch : Except DbError (List Batch)) :
    HandlerOut (Option (List Batch) × Nat × List Batch) :=
  match cache with
  | some bs => HandlerOut.ok (some bs, 200, bs)
  | none =>
      match fetch with
      | Except.ok bs => HandlerOut.ok (some bs, 200, bs)
      | Except.error e => HandlerOut.err e

/-- Embedding of `get_batches_for_program` (main.rs lines 141-169).
In source order: populate the cache if empty (`Batch::get_batches()?`,
error propagated), acquire a pooled connection (`.unwrap()`: a pool failure
panics), resolve the nest (`Nest::get(...).await?`, error propagated), then
filter the cached batches on `bat.sheet_name == nest.sheet.sheet_name`
(a clone-preserving `iter().filter().map().collect()`, no reordering).
Returns the updated cache cell together with the response. -/
def get_batches_for_program (cache : Option (List Batch))
    (fetch : Except DbError (List Batch)) (connAcq : Option Unit)
    (nestRes : Except DbError Nest) :
    HandlerOut (Option (List Batch) × Nat × List Batch) :=
  let loaded : Except DbError (List Batch) :=
    match cache with
    | some bs => Except.ok bs
    | none => fetch
  match loaded with
  | Except.error e => HandlerOut.err e
  | Except.ok bs =>
      match connAcq with
      | none => HandlerOut.panicked
      | some _ =>
          match nestRes with
          | Except.error e => HandlerOut.err e
          | Except.ok nest =>
              HandlerOut.ok (some bs, 200,
                bs.filter (fun bat => bat.sheet_name == nest.sheet.sheet_name))

/-- Embedding of `get_nest` (main.rs lines 243-255): connection
acquisition is `.unwrap()`ed (`none` panics), the nest lookup error is
propagated with `?`, and a found nest is serialized and returned with
HTTP 200. -/
def get_nest (connAcq : Option Unit) (nestRes : Except DbError Nest) :
    HandlerOut (Nat × Nest) :=
  match connAcq with
  | none => HandlerOut.panicked
  | some _ =>
      match nestRes with
      | Except.error e => HandlerOut.err e
      | Except.ok nest => HandlerOut.ok (200, nest)

/-- Outcome of a handler that returns a plain response (no `Result`): either
the task panicked on a `.unwrap()` (no HTTP response produced) or it
produced a response value. -/
inductive PlainOut (α : Type)
  | panicked
  | response (a : α)
deriving DecidableEq, Repr

/-- Extended response bodies for the listing handlers: the program listing
serializes rows as objects `\x7bprogram, repeats, cuttingTime\x7d`. -/
inductive ListingBody
  | null
  | machines (xs : List String)
  | programs (xs : List (String × Int × Int))
deriving DecidableEq, Repr

/-- Embedding of `get_machines` (main.rs lines 101-125).  `connAcq` is the
outcome of `state.db.get_owned().await` (`.unwrap()`: `none` panics);
`queryResult` nests the outcome of `simple_query` (outer) and of
`into_first_result` (inner); a row is its column-0 value, `none` for SQL
NULL, and a NULL machine name becomes `""` via `unwrap_or("")`. -/
def get_machines (connAcq : Option Unit)
    (queryResult : Except Unit (Except Unit (List (Option String)))) :
    PlainOut (Nat × ListingBody) :=
  match connAcq with
  | none => PlainOut.panicked
  | some _ =>
      match queryResult with
      | Except.error _ => PlainOut.response (500, ListingBody.null)
      | Except.ok inner =>
          match inner with
          | Except.error _ => PlainOut.response (500, ListingBody.null)
          | Except.ok rows =>
              PlainOut.response (200,
                ListingBody.machines (rows.map (fun val => val.getD "")))

/-- A row of the program-listing query: `ProgramName`, `Repeats`,
`CuttingTime`; `none` models SQL NULL.  The `CuttingTime` float payload is
carried opaquely (never computed with), so it is modelled by an integer
tag. -/
structure ProgramRow where
  programName : Option String
  repeats : Option Int
  cuttingTime : Option Int
deriving DecidableEq, Repr

/-- The row-to-JSON mapping of `get_programs`: each field is `.unwrap()`ed,
so a NULL field gives `none` (a panic of the handler task). -/
def decodeProgramRow (r : ProgramRow) : Option (String × Int × Int) :=
  match r.programName, r.repeats, r.cuttingTime with
  | some p, some rep, some c => some (p, rep, c)
  | _, _, _ => none

/-- The `rows.iter().map(..).collect()` of `get_programs`: decoding stops
at (panics on) the first row with a NULL field. -/
def decodeProgramRows : List ProgramRow → Option (List (String × Int × Int))
  | [] => some []
  | r :: rest =>
      match decodeProgramRow r with
      | none => none
      | some x =>
          match decodeProgramRows rest with
          | none => none
          | some xs => some (x :: xs)

/-- Embedding of `get_programs` (main.rs lines 183-241): connection
acquisition is `.unwrap()`ed, query and stream-collection failures each
yield `(500, null)`, and each returned row is decoded with per-field
`.unwrap()` (panicking on a NULL field). -/
def get_programs (connAcq : Option Unit)
    (queryResult : Except Unit (Except Unit (List ProgramRow))) :
    PlainOut (Nat × ListingBody) :=
  match connAcq with
  | none => PlainOut.panicked
  | some _ =>
      match queryResult with
      | Except.error _ => PlainOut.response (500, ListingBody.null)
      | Except.ok inner =>
          match inner with
          | Except.error _ => PlainOut.response (500, ListingBody.null)
          | Except.ok rows =>
              match decodeProgramRows rows with
              | none => PlainOut.panicked
              | some xs => PlainOut.response (200, ListingBody.programs xs)

/-- Modelled from the spec: the `IntoResponse` rendering of the external
`sigmanest_interface::Result` error type (used by the nest and batches
handlers) is absent from src/.  Per section 7, a propagated read-path
error surfaces as a generic server error to the caller — status code only,
no structured body — so an `err` renders as `(500, null)`; an `ok`
response passes through its payload; a panicked task produces no
response. -/
def renderHandler {α : Type} (toResp : α → Nat × ListingBody) :
    HandlerOut α → PlainOut (Nat × ListingBody)
  | HandlerOut.panicked => PlainOut.panicked
  | HandlerOut.err _ => PlainOut.response (500, ListingBody.null)
  | HandlerOut.ok a => PlainOut.response (toResp a)

/-- Connection configuration built by `build_db_pool` (pool.rs lines
13-26): fixed development host and database, SQL-server authentication
from the `SNDB_USER` / `SNDB_PWD` environment variables. -/
structure DbConfig where
  host : String
  database : String
  user : String
  pass : String
deriving DecidableEq, Repr

/-- The built pool: its configuration and the fixed capacity of 8. -/
structure DbPool where
  config : DbConfig
  maxSize : Nat
deriving DecidableEq, Repr

/-- Embedding of `build_db_pool` (pool.rs lines 9-58).  `sndb_user` and
`sndb_pwd` are the environment lookups (`std::env::var(..).unwrap()`:
`none` panics); `mgrOk` and `poolOk` are the outcomes of the external
`ConnectionManager::build` and `bb8::Pool::builder().max_size(8).build`
calls, each of which panics on failure.  A `none` result is a startup
panic that aborts the process. -/
def build_db_pool (sndb_user sndb_pwd : Option String) (mgrOk poolOk : Bool) :
    Option DbPool :=
  match sndb_user with
  | none => none
  | some user =>
      match sndb_pwd with
      | none => none
      | some pass =>
          if mgrOk then
            if poolOk then
              some { config := { host := "HIISQLSERV6", database := "SNDBaseISap",
                                 user := user, pass := pass },
                     maxSize := 8 }
            else none
          else none

/-- Server startup state (`struct AppState`): the pool plus the empty batch
cache cell.  `AppState::new` awaits `build_db_pool`, so a startup panic
prevents the state from existing. -/
structure AppState where
  db : DbPool
  batches : Option (List Batch)
deriving DecidableEq, Repr

/-- `AppState::new` (main.rs lines 44-49), parameterized by the same
external outcomes as `build_db_pool`. -/
def appState_new (sndb_user sndb_pwd : Option String) (mgrOk poolOk : Bool) :
    Option AppState :=
  (build_db_pool sndb_user sndb_pwd mgrOk poolOk).map
    (fun pool => { db := pool, batches := none })

/-- `main` binds the listener and serves only after `AppState::new(..)`
completes (main.rs lines 83-98): the server begins serving iff the state
(hence the pool) was constructed. -/
def server_starts (sndb_user sndb_pwd : Option String) (mgrOk poolOk : Bool) :
    Bool :=
  (appState_new sndb_user sndb_pwd mgrOk poolOk).isSome

end Sigmanest

namespace Sigmanest

/-- C1: a Complete transition whose database write fails still returns the
success acknowledgment (HTTP 201 with null body), identical to the response
when the write succeeds, and the failure is logged at error level rather
than propagated. -/
theorem complete_write_failure_swallowed (program batch e : String) :
    (update_program program ⟨batch, ProgramState.Complete⟩ (some ())
        (Except.error e)).resp = some (201, RespBody.null) ∧
    (update_program program ⟨batch, ProgramState.Complete⟩ (some ())
        (Except.error e)).resp =
      (update_program program ⟨batch, ProgramState.Complete⟩ (some ())
        (Except.ok ())).resp ∧
    ∃ l ∈ (update_program program ⟨batch, ProgramState.Complete⟩ (some ())
        (Except.error e)).logs,
      l.level = LogLevel.ErrorLvl := by
  refine ⟨rfl, rfl, ?_⟩
  exact ⟨⟨LogLevel.ErrorLvl, "Failed to push program update to SimTrans"⟩,
    by simp [update_program], rfl⟩

/-- C4 counterexample: a Complete request whose pool-connection
acquisition fails panics on the `.unwrap()` before `conn.execute`, so it
attempts zero database writes — not exactly one — and produces no
response. -/
theorem complete_acq_failure_attempts_no_write :
    (update_program "p1" ⟨"b1", ProgramState.Complete⟩ none
        (Except.ok ())).writes = [] ∧
    (update_program "p1" ⟨"b1", ProgramState.Complete⟩ none
        (Except.ok ())).writes.length ≠ 1 ∧
    (update_program "p1" ⟨"b1", ProgramState.Complete⟩ none
        (Except.ok ())).resp = none := by
  decide

/-- C4 amended: every Complete transition whose pool-connection acquisition
succeeds attempts exactly one database write, a `TransType='SN70'` insert
whose repeat identifier is looked up by the program name within the same
statement, regardless of whether the write succeeds; two such Complete
requests for the same program attempt two writes (no deduplication); and
an acquisition failure panics with no write attempted. -/
theorem complete_write_exactly_once (program batch : String)
    (res res' res'' : Except String Unit) :
    (update_program program ⟨batch, ProgramState.Complete⟩ (some ()) res).writes =
      [{ transType := "SN70", district := 1,
         programName := program, repeatLookupProgram := program }] ∧
    run_updates [(program, ⟨batch, ProgramState.Complete⟩, some (), res),
                 (program, ⟨batch, ProgramState.Complete⟩, some (), res')] =
      [{ transType := "SN70", district := 1,
         programName := program, repeatLookupProgram := program },
       { transType := "SN70", district := 1,
         programName := program, repeatLookupProgram := program }] ∧
    (update_program program ⟨batch, ProgramState.Complete⟩ none res'').writes =
      [] := by
  cases res <;> cases res' <;> simp [update_program, run_updates]

/-- C7: a transition to Initiated, Processing or Cancelled attempts no
database write, emits exactly one (non-error) log entry, and returns the
success acknowledgment (HTTP 201 with null body) — for every
pool-acquisition outcome, since these branches never touch the pool. -/
theorem non_complete_no_side_effect (program batch : String) (st : ProgramState)
    (connAcq : Option Unit) (res : Except String Unit)
    (h : st ≠ ProgramState.Complete) :
    let out := update_program program ⟨batch, st⟩ connAcq res
    out.writes = [] ∧ out.resp = some (201, RespBody.null) ∧
    out.logs.length = 1 ∧ (∀ l ∈ out.logs, l.level ≠ LogLevel.ErrorLvl) := by
  cases st <;> simp_all [update_program]

/-- Witness for C7 at a concrete input. -/
theorem non_complete_no_side_effect_witness :
    let out := update_program "p1" ⟨"b1", ProgramState.Initiated⟩ (some ())
      (Except.ok ())
    out.writes = [] ∧ out.resp = some (201, RespBody.null) ∧
    out.logs.length = 1 ∧ (∀ l ∈ out.logs, l.level ≠ LogLevel.ErrorLvl) :=
  non_complete_no_side_effect "p1" "b1" ProgramState.Initiated (some ())
    (Except.ok ()) (by decide)

/-- C2: with a populated cache and a nest resolving to sheet name
`nest.sheet.sheet_name`, `get_batches_for_program` returns exactly the
cached batches with that sheet name, as a sublist of the cache (insertion
order preserved, no reordering or additional sort), excluding every batch
with any other sheet name. -/
theorem batches_for_program_filters_by_sheet (bs : List Batch) (nest : Nest)
    (fetch : Except DbError (List Batch)) :
    ∃ out, get_batches_for_program (some bs) fetch (some ()) (Except.ok nest) =
        HandlerOut.ok (some bs, 200, out) ∧
      out = bs.filter (fun b => b.sheet_name == nest.sheet.sheet_name) ∧
      out.Sublist bs ∧
      ∀ b, b ∈ out ↔ b ∈ bs ∧ b.sheet_name = nest.sheet.sheet_name := by
  refine ⟨bs.filter (fun b => b.sheet_name == nest.sheet.sheet_name),
    rfl, rfl, List.filter_sublist bs, ?_⟩
  intro b
  simp [List.mem_filter]

/-- C3: the batch source is invoked only when the cache cell is empty, and
from any state whose cell already holds a list `bs`, any number of further
get-or-load operations leave the cell holding `bs`, perform zero further
fetches, and give every caller the same list `bs`. -/
theorem cache_populated_at_most_once (fetch : Nat → Except DbError (List Batch))
    (n : Nat) (s : CacheState) (bs : List Batch) (h : s.cache = some bs) :
    (∀ t : CacheState, (cacheStep fetch t).1.fetchCount ≠ t.fetchCount →
        t.cache = none) ∧
    (cacheRun fetch n s).1.cache = some bs ∧
    (cacheRun fetch n s).1.fetchCount = s.fetchCount ∧
    ∀ r ∈ (cacheRun fetch n s).2, r = Except.ok bs := by
  refine ⟨?_, ?_⟩
  · intro t ht
    cases hc : t.cache with
    | none => rfl
    | some xs => simp [cacheStep, hc] at ht
  · induction n generalizing s with
    | zero => simp [cacheRun, h]
    | succ n ih =>
        have hstep : cacheStep fetch s = (s, Except.ok bs) := by
          simp [cacheStep, h]
        have := ih s h
        simp [cacheRun, hstep]
        exact ⟨this.1, this.2.1, fun r hr => this.2.2 r hr⟩

/-- Witness for C3 at a concrete input. -/
theorem cache_populated_at_most_once_witness :
    let fetch : Nat → Except DbError (List Batch) := fun _ => Except.ok []
    let s : CacheState := ⟨some [⟨"S1", "b1"⟩], 1⟩
    (∀ t : CacheState, (cacheStep fetch t).1.fetchCount ≠ t.fetchCount →
        t.cache = none) ∧
    (cacheRun fetch 2 s).1.cache = some [⟨"S1", "b1"⟩] ∧
    (cacheRun fetch 2 s).1.fetchCount = s.fetchCount ∧
    ∀ r ∈ (cacheRun fetch 2 s).2, r = Except.ok [⟨"S1", "b1"⟩] :=
  cache_populated_at_most_once (fun _ => Except.ok []) 2
    ⟨some [⟨"S1", "b1"⟩], 1⟩ [⟨"S1", "b1"⟩] rfl

/-- C5: when no nest row matches a program, `Nest.get` fails with
`NotFound`, and `get_batches_for_program` for that program propagates that
same failure without returning any batches, even with a populated cache. -/
theorem unknown_program_not_found (rows : List Nest) (program : String)
    (bs : List Batch) (fetch : Except DbError (List Batch))
    (h : ∀ n ∈ rows, n.program ≠ program) :
    Nest.get rows false program = Except.error DbError.NotFound ∧
    get_batches_for_program (some bs) fetch (some ())
        (Nest.get rows false program) = HandlerOut.err DbError.NotFound := by
  have hfind : rows.find? (fun n => n.program == program) = none := by
    apply List.find?_eq_none.mpr
    intro n hn
    simpa using h n hn
  constructor
  · simp [Nest.get, hfind]
  · simp [Nest.get, hfind, get_batches_for_program]

/-- Witness for C5 at a concrete input. -/
theorem unknown_program_not_found_witness :
    Nest.get [⟨"known", ⟨"S1"⟩⟩] false "does-not-exist" =
        Except.error DbError.NotFound ∧
    get_batches_for_program (some [⟨"S1", "b1"⟩]) (Except.ok []) (some ())
        (Nest.get [⟨"known", ⟨"S1"⟩⟩] false "does-not-exist") =
      HandlerOut.err DbError.NotFound :=
  unknown_program_not_found [⟨"known", ⟨"S1"⟩⟩] "does-not-exist"
    [⟨"S1", "b1"⟩] (Except.ok []) (by decide)

/-- C6 counterexample: two failure classes do not surface as a generic
server error response.  A connection-pool acquisition failure on
`get_machines` panics the task on the `.unwrap()` with no response at all;
and on `get_programs`, a returned row whose `ProgramName` is NULL panics
during row decoding (the per-field `.unwrap()`), again with no response. -/
theorem conn_acq_failure_panics :
    (get_machines none (Except.ok (Except.ok [])) = PlainOut.panicked ∧
      ∀ r : Nat × ListingBody,
        get_machines none (Except.ok (Except.ok [])) ≠ PlainOut.response r) ∧
    (get_programs (some ())
        (Except.ok (Except.ok [⟨none, some 1, some 1⟩])) = PlainOut.panicked ∧
      ∀ r : Nat × ListingBody,
        get_programs (some ())
            (Except.ok (Except.ok [⟨none, some 1, some 1⟩])) ≠
          PlainOut.response r) := by
  have h1 : get_machines none (Except.ok (Except.ok [])) = PlainOut.panicked := rfl
  have h2 : get_programs (some ())
      (Except.ok (Except.ok [⟨none, some 1, some 1⟩])) = PlainOut.panicked := rfl
  refine ⟨⟨h1, ?_⟩, ⟨h2, ?_⟩⟩
  · intro r h
    rw [h1] at h
    exact PlainOut.noConfusion h
  · intro r h
    rw [h2] at h
    exact PlainOut.noConfusion h

/-- C6 amended: for every read-path request (machines,
programs-for-machine, nest, batches), a query-execution,
result-collection, batch-fetch or nest-lookup failure surfaces to the
caller as a generic server error response (status 500, no structured
body — never a partial result; the nest/batches handlers propagate the
error to the spec-modelled `Result` rendering); the exceptions are that a
connection-pool acquisition failure panics the handler task (`.unwrap()`)
producing no response, and that on programs-for-machine a NULL field in a
returned row panics during row decoding (per-field `.unwrap()`), also
producing no response. -/
theorem read_path_error_propagation (e : DbError) (bs : List Batch)
    (fetch : Except DbError (List Batch)) (connAcq : Option Unit)
    (nestRes : Except DbError Nest) (rep ct : Option Int)
    (rows : List ProgramRow)
    (q1 : Except Unit (Except Unit (List (Option String))))
    (q2 : Except Unit (Except Unit (List ProgramRow)))
    (toBatches : Option (List Batch) × Nat × List Batch → Nat × ListingBody)
    (toNest : Nat × Nest → Nat × ListingBody) :
    get_machines (some ()) (Except.error ()) =
      PlainOut.response (500, ListingBody.null) ∧
    get_machines (some ()) (Except.ok (Except.error ())) =
      PlainOut.response (500, ListingBody.null) ∧
    get_programs (some ()) (Except.error ()) =
      PlainOut.response (500, ListingBody.null) ∧
    get_programs (some ()) (Except.ok (Except.error ())) =
      PlainOut.response (500, ListingBody.null) ∧
    renderHandler toBatches (get_batches none (Except.error e)) =
      PlainOut.response (500, ListingBody.null) ∧
    renderHandler toBatches
        (get_batches_for_program none (Except.error e) connAcq nestRes) =
      PlainOut.response (500, ListingBody.null) ∧
    renderHandler toBatches
        (get_batches_for_program (some bs) fetch (some ()) (Except.error e)) =
      PlainOut.response (500, ListingBody.null) ∧
    renderHandler toNest (get_nest (some ()) (Except.error e)) =
      PlainOut.response (500, ListingBody.null) ∧
    get_machines none q1 = PlainOut.panicked ∧
    get_programs none q2 = PlainOut.panicked ∧
    renderHandler toBatches
        (get_batches_for_program (some bs) fetch none nestRes) =
      PlainOut.panicked ∧
    renderHandler toNest (get_nest none nestRes) = PlainOut.panicked ∧
    get_programs (some ())
        (Except.ok (Except.ok (⟨none, rep, ct⟩ :: rows))) =
      PlainOut.panicked := by
  refine ⟨rfl, rfl, rfl, rfl, rfl, rfl, rfl, rfl, rfl, rfl, rfl, rfl, ?_⟩
  cases rep <;> cases ct <;> rfl

/-- C8: a machines query returning zero rows yields HTTP 200 with an empty
array, not an error. -/
theorem empty_machines_list_ok :
    get_machines (some ()) (Except.ok (Except.ok [])) =
      PlainOut.response (200, ListingBody.machines []) := rfl

/-- C9: `get_machines` maps every NULL column value to the empty string:
the response is always 200 with one (possibly empty) string per row, and a
NULL row contributes `""` rather than an error. -/
theorem null_machine_name_becomes_empty (rows : List (Option String)) :
    get_machines (some ()) (Except.ok (Except.ok rows)) =
      PlainOut.response (200,
        ListingBody.machines (rows.map (fun val => val.getD ""))) ∧
    (none ∈ rows → "" ∈ rows.map (fun val => val.getD "")) := by
  refine ⟨rfl, ?_⟩
  intro h
  exact List.mem_map.mpr ⟨none, h, rfl⟩

/-- Witness for C9 at a concrete input containing a NULL row. -/
theorem null_machine_name_becomes_empty_witness :
    get_machines (some ()) (Except.ok (Except.ok [some "m1", none])) =
      PlainOut.response (200, ListingBody.machines ["m1", ""]) ∧
    "" ∈ ["m1", ""] :=
  ⟨(null_machine_name_becomes_empty [some "m1", none]).1,
   (null_machine_name_becomes_empty [some "m1", none]).2 (by decide)⟩

/-- C10: the server starts serving iff both environment variables are set
and the connection manager and pool build succeed; any failure makes
`build_db_pool` panic (no pool value), so the server never begins serving
without a constructed pool. -/
theorem startup_requires_pool (u p : Option String) (mgrOk poolOk : Bool) :
    (server_starts u p mgrOk poolOk = true ↔
      (u.isSome = true ∧ p.isSome = true ∧ mgrOk = true ∧ poolOk = true)) ∧
    (build_db_pool u p mgrOk poolOk = none ↔
      server_starts u p mgrOk poolOk = false) := by
  cases u <;> cases p <;> cases mgrOk <;> cases poolOk <;>
    simp [server_starts, appState_new, build_db_pool]

end Sigmanest
